import Mathlib

/-!
Verification of the imeSync trigger-driven synchronization scheduler
(src/services/SyncManager.ts and the manual sync entry point in
src/main.ts) against its natural-language specification.

The TypeScript source is shallowly embedded: strings are Lean strings,
JavaScript string primitives (trim, split, includes, lexicographic
comparison, Number conversion) are implemented over the character list
of the string so that every definition is executable and decidable.
The type definition file src/types/SessionConfig.ts is not present under
src/; the field shapes of the session and trigger records are
reconstructed from their uses in services/SyncManager.ts, the UI sources
and spec section 3.
-/

namespace ImeSync

/-! ## JavaScript string primitives, embedded over character lists -/

/-- Substring test on character lists: true when the second list occurs
contiguously inside the first (JavaScript String.prototype.includes). -/
def containsSub : List Char → List Char → Bool
  | l, p => p.isPrefixOf l ||
      (match l with
       | [] => false
       | _ :: t => containsSub t p)

/-- JavaScript s.includes(pat). -/
def jsIncludes (s pat : String) : Bool :=
  containsSub s.data pat.data

/-- JavaScript s.trim(): strip leading and trailing whitespace. -/
def jsTrim (s : String) : String :=
  String.mk ((s.data.dropWhile Char.isWhitespace).reverse.dropWhile Char.isWhitespace |>.reverse)

/-- Value of a run of decimal digits. -/
def digitRunVal (ds : List Char) : Nat :=
  ds.foldl (fun acc c => acc * 10 + (c.toNat - 48)) 0

/-- Auxiliary parser for `jsNumber`: all-digit strings only. -/
def allDigitsVal? (cs : List Char) : Option Nat :=
  if cs ≠ [] && cs.all Char.isDigit then some (digitRunVal cs) else none

/-- JavaScript Number(s) restricted to the naturals: the empty or
whitespace-only string converts to 0, a digit string to its value, and
anything else to NaN (modelled as none). -/
def jsNumber (s : String) : Option Nat :=
  let t := jsTrim s
  if t = "" then some 0 else allDigitsVal? t.data

/-- JavaScript s.split(sep) for a one-character separator. -/
def splitOnChar (sep : Char) : List Char → List (List Char)
  | [] => [[]]
  | c :: cs =>
      if c = sep then [] :: splitOnChar sep cs
      else match splitOnChar sep cs with
        | [] => [[c]]
        | p :: ps => (c :: p) :: ps

/-- JavaScript s.split(sep) on strings, one-character separator. -/
def jsSplit (s : String) (sep : Char) : List String :=
  (splitOnChar sep s.data).map String.mk

/-- JavaScript lexicographic string comparison, strict less-than. -/
def charListLt : List Char → List Char → Bool
  | [], [] => false
  | [], _ :: _ => true
  | _ :: _, [] => false
  | a :: as, b :: bs =>
      if a.toNat < b.toNat then true
      else if b.toNat < a.toNat then false
      else charListLt as bs

/-- JavaScript a < b on strings. -/
def jsStrLt (a b : String) : Bool :=
  charListLt a.data b.data

/-- The single-quote character, written by code point to keep the file
free of raw quote characters. -/
def quoteChar : Char := Char.ofNat 39

/-- Wrap a string in single quotes (the shell quoting used for the
exclude patterns of the rsync command). -/
def squote (s : String) : String :=
  String.singleton quoteChar ++ s ++ String.singleton quoteChar

/-- Wrap a string in double quotes (used for the source and destination
path arguments of the rsync command). -/
def dquote (s : String) : String :=
  "\"" ++ s ++ "\""

/-- String(n).padStart(2, zero): left-pad a decimal rendering to width
two (used to format HH:MM clock strings). -/
def pad2 (n : Nat) : String :=
  let s := toString n
  if s.length < 2 then String.mk (List.replicate (2 - s.length) (Char.ofNat 48)) ++ s else s

/-! ## Data model

The session and trigger records of src/types/SessionConfig.ts (the file
itself is not under src/; shapes follow spec section 3 and every use in
SyncManager.ts).  Optional TypeScript fields become Option; JavaScript
truthiness of an optional boolean is captured by comparison with
some true, of an optional string by comparison with none / the empty
string. -/

structure RemoteConnection where
  host : String
  username : String
  password : Option String
  port : Option Nat
  moduleName : Option String
  remotePath : Option String
deriving DecidableEq

structure RsyncOptions where
  updateOnly : Option Bool
  deleteOnDestination : Option Bool
  compress : Option Bool
  preservePermissions : Option Bool
deriving DecidableEq

structure ScheduleTrigger where
  time : String
  days : List String
deriving DecidableEq

structure IntervalTrigger where
  intervalMinutes : Nat
  startTime : Option String
  endTime : Option String
deriving DecidableEq

structure FileChangeTrigger where
  watchPaths : List String
  recursive : Bool
  debounceMs : Nat
  ignorePatterns : Option (List String)
deriving DecidableEq

structure WiFiTrigger where
  ssid : String
  onConnect : Bool
deriving DecidableEq

structure StartupTrigger where
  delayMs : Nat
deriving DecidableEq

inductive Trigger where
  | schedule (t : ScheduleTrigger)
  | wifi (t : WiFiTrigger)
  | fileChange (t : FileChangeTrigger)
  | startup (t : StartupTrigger)
  | interval (t : IntervalTrigger)
deriving DecidableEq

structure SessionConfig where
  id : String
  name : String
  sourcePath : String
  destinationPath : String
  enabled : Bool
  paused : Option Bool
  triggers : List Trigger
  excludePatterns : Option (List String)
  rsyncOptions : Option RsyncOptions
  remoteConnection : Option RemoteConnection
  lastSync : Option String
  lastSyncStatus : Option String
  lastSyncError : Option String
deriving DecidableEq

/-- Truthiness of an optional string field. -/
def truthyStr : Option String → Bool
  | none => false
  | some s => s ≠ ""

/-- rsyncOptions?.updateOnly ?? true (SyncManager.ts line 518). -/
def SessionConfig.updateOnlyFlag (s : SessionConfig) : Bool :=
  ((s.rsyncOptions.bind RsyncOptions.updateOnly).getD true)

/-- Truthiness of rsyncOptions?.deleteOnDestination. -/
def SessionConfig.deleteFlag (s : SessionConfig) : Bool :=
  ((s.rsyncOptions.bind RsyncOptions.deleteOnDestination).getD false)

/-- Truthiness of rsyncOptions?.compress. -/
def SessionConfig.compressFlag (s : SessionConfig) : Bool :=
  ((s.rsyncOptions.bind RsyncOptions.compress).getD false)

/-- Truthiness of rsyncOptions?.preservePermissions. -/
def SessionConfig.permsFlag (s : SessionConfig) : Bool :=
  ((s.rsyncOptions.bind RsyncOptions.preservePermissions).getD false)

/-! ## The rsync command line (syncWithRsync, SyncManager.ts lines 489 to 547)

The command is a single string built by successive appends, mirrored
append for append.  The environment assignment of RSYNC_PASSWORD
(lines 493 to 497) is modelled separately: the environment is the only
place the password reaches. -/

/-- The exclude-pattern fold of lines 506 to 513: one quoted
exclude flag appended per non-empty trimmed pattern. -/
def excludeFold (pats : List String) (cmd : String) : String :=
  pats.foldl (fun c p =>
    let cp := jsTrim p
    if cp ≠ "" then c ++ (" --exclude=" ++ squote cp) else c) cmd

/-- The full rsync command string of syncWithRsync, built exactly as in
lines 499 to 544 of SyncManager.ts. -/
def rsyncCommandOf (s : SessionConfig) : String :=
  let excludePatterns := s.excludePatterns.getD []
  let base := "rsync -av --progress --stats" ++ " --human-readable"
  let c1 := if excludePatterns.length > 0 then excludeFold excludePatterns base else base
  let c2 := if !s.updateOnlyFlag then c1 ++ " --ignore-times" else c1
  let c3 := if s.deleteFlag then c2 ++ " --delete" else c2
  let c4 := if s.compressFlag then c3 ++ " -z" else c3
  let c5 := if s.permsFlag then c4 ++ " -p" else c4
  c5 ++ (" " ++ dquote (s.sourcePath ++ "/") ++ " " ++ dquote (s.destinationPath ++ "/"))

/-- The RSYNC_PASSWORD environment entry set up in lines 493 to 497:
present exactly when the session has a remote connection with a truthy
password, and holding that password. -/
def rsyncEnvPassword (s : SessionConfig) : Option String :=
  match s.remoteConnection with
  | some rc => match rc.password with
    | some p => if p ≠ "" then some p else none
    | none => none
  | none => none

/-- Replace the password of the remote connection (used to state that
the command line is independent of the password). -/
def withPassword (s : SessionConfig) (pw : Option String) : SessionConfig :=
  { s with remoteConnection := s.remoteConnection.map (fun rc => { rc with password := pw }) }

/-- Spec-side description of the command (spec section 4.3 step 5): the
token list consisting of the base flags, one exclude flag per non-empty
trimmed pattern, then the four conditional option flags, then the quoted
source and destination arguments. -/
def specRsyncArgs (s : SessionConfig) : List String :=
  ["rsync", "-av", "--progress", "--stats", "--human-readable"]
  ++ (s.excludePatterns.getD []).filterMap
      (fun p => if jsTrim p ≠ "" then some ("--exclude=" ++ squote (jsTrim p)) else none)
  ++ (if s.updateOnlyFlag then [] else ["--ignore-times"])
  ++ (if s.deleteFlag then ["--delete"] else [])
  ++ (if s.compressFlag then ["-z"] else [])
  ++ (if s.permsFlag then ["-p"] else [])
  ++ [dquote (s.sourcePath ++ "/"), dquote (s.destinationPath ++ "/")]

/-- Tokens glued together, each preceded by one space. -/
def glueSp : List String → String
  | [] => ""
  | t :: ts => " " ++ t ++ glueSp ts

/-- The exclude tokens of a session, as in the spec-side description. -/
def excludeTokens (s : SessionConfig) : List String :=
  (s.excludePatterns.getD []).filterMap
    (fun p => if jsTrim p ≠ "" then some ("--exclude=" ++ squote (jsTrim p)) else none)

/-- Example session used by the witnesses: the end-to-end scenario of
spec section 8. -/
def exRC : RemoteConnection :=
  { host := "h", username := "u", password := some "secret",
    port := none, moduleName := some "m", remotePath := some "p" }

/-- Example session used by the witnesses. -/
def exSession : SessionConfig :=
  { id := "s1", name := "Docs", sourcePath := "/tmp/src",
    destinationPath := "rsync://u@h:873/m/p", enabled := true,
    paused := none, triggers := [],
    excludePatterns := some ["*.tmp", "  ", ""],
    rsyncOptions := some { updateOnly := some true, deleteOnDestination := none,
                           compress := none, preservePermissions := none },
    remoteConnection := some exRC,
    lastSync := none, lastSyncStatus := none, lastSyncError := none }

/-! ## Error classification and subprocess execution
(syncWithRsync, SyncManager.ts lines 549 to 605) -/

/-- The message-pattern classification of a failed rsync subprocess
(lines 590 to 604): the first matching pattern wins, in source order
permission denied, missing path, connection refused, host verification;
otherwise the original message is re-raised. -/
def classifyRsyncError (m : String) : String :=
  if jsIncludes m "Permission denied" then
    "Permission denied. Check read permissions on source and write permissions on destination."
  else if jsIncludes m "No such file or directory" then
    "Source or destination path not found. Please verify the paths are correct."
  else if jsIncludes m "Connection refused" then
    "Connection refused. Check if rsync daemon is running on the remote host."
  else if jsIncludes m "Host key verification failed" then
    "Host verification failed. Please check server configuration."
  else m

/-- First match of the regular expression pat(\d+) inside a character
list: scan left to right, succeed at the first position where the
literal pattern is followed by at least one digit, returning the value
of the maximal digit run (the capture of line 567). -/
def captureNumAfter (pat : List Char) : List Char → Option Nat
  | [] => none
  | l@(_ :: t) =>
      if pat.isPrefixOf l then
        let ds := (l.drop pat.length).takeWhile Char.isDigit
        if ds ≠ [] then some (digitRunVal ds) else captureNumAfter pat t
      else captureNumAfter pat t

/-- Greedy capture for the regular expression (.+)suffix: the longest
non-empty prefix of the list after which the suffix occurs. -/
def greedyCapBefore (suffix : List Char) : List Char → Option (List Char)
  | [] => none
  | c :: rs =>
      match greedyCapBefore suffix rs with
      | some cap => some (c :: cap)
      | none => if suffix.isPrefixOf rs then some [c] else none

/-- First match of pat(.+)suffix inside a character list (the capture of
line 572). -/
def captureBetween (pat suffix : List Char) : List Char → Option (List Char)
  | [] => none
  | l@(_ :: t) =>
      if pat.isPrefixOf l then
        match greedyCapBefore suffix (l.drop pat.length) with
        | some cap => some cap
        | none => captureBetween pat suffix t
      else captureBetween pat suffix t

/-- The per-line loop over rsync stdout (lines 563 to 577), accumulating
info log entries for transfer lines and the last parsed files-transferred
count and total-size capture. -/
def stdoutLoop : List String → Nat → String → List (String × String) × Nat × String
  | [], files, size => ([], files, size)
  | l :: ls, files, size =>
      if jsIncludes l "->" || jsIncludes l "sent" || jsIncludes l "received" then
        let r := stdoutLoop ls files size
        (("info", l) :: r.1, r.2)
      else if jsIncludes l "Number of files transferred:" then
        match captureNumAfter "Number of files transferred: ".data l.data with
        | some n => stdoutLoop ls n size
        | none => stdoutLoop ls files size
      else if jsIncludes l "Total file size:" then
        match captureBetween "Total file size: ".data " bytes".data l.data with
        | some cap => stdoutLoop ls files (String.mk cap)
        | none => stdoutLoop ls files size
      else stdoutLoop ls files size

/-- The logs produced from rsync stdout on the success path
(lines 557 to 584): nothing when stdout is empty (falsy); otherwise the
per-line info entries, the transfer-completed success entry, the
files-transferred count and, when captured, the total size. -/
def rsyncStdoutLogs (stdout : String) (duration : Nat) : List (String × String) :=
  if stdout ≠ "" then
    let lines := (jsSplit stdout (Char.ofNat 10)).filter (fun l => jsTrim l ≠ "")
    let r := stdoutLoop lines 0 ""
    r.1 ++ [("success", "Transfer completed in " ++ toString duration ++ "s"),
            ("info", "Files transferred: " ++ toString r.2.1)]
        ++ (if r.2.2 ≠ "" then [("info", "Total size: " ++ r.2.2 ++ " bytes")] else [])
  else []

/-- JavaScript port || 873 on the optional port field (0 is falsy). -/
def jsPortD (port : Option Nat) : Nat :=
  match port with
  | some p => if p = 0 then 873 else p
  | none => 873

/-- The messages of the info log calls emitted by syncWithRsync before
the subprocess runs (lines 475 to 547), in source order; every one of
those log calls carries the info level. -/
def rsyncPreMsgs (s : SessionConfig) (rc : RemoteConnection) : List String :=
  ["Source directory verified: " ++ s.sourcePath,
   "Detected rsync daemon destination",
   "Rsync daemon mode configured for " ++ rc.username ++ "@" ++ rc.host ++ ":"
      ++ toString (jsPortD rc.port)]
  ++ (if truthyStr rc.password then
        ["Using RSYNC_PASSWORD for daemon authentication"] else [])
  ++ (if (s.excludePatterns.getD []).length > 0 then
        ["Excluding patterns: "
            ++ String.intercalate ", " (((s.excludePatterns.getD []).map jsTrim).filter (fun p => p ≠ ""))]
      else [])
  ++ (if !s.updateOnlyFlag then
        ["Update mode disabled: all files will be transferred regardless of timestamps"]
      else ["Update mode enabled: only newer files will be transferred"])
  ++ (if s.deleteFlag then
        ["Delete mode enabled: files not in source will be removed from destination"] else [])
  ++ (if s.compressFlag then ["Compression enabled for transfer"] else [])
  ++ (if s.permsFlag then ["Permission preservation enabled"] else [])
  ++ ["Executing rsync command...", "Full command: " ++ rsyncCommandOf s]

/-- The info log entries emitted by syncWithRsync before the subprocess
runs. -/
def rsyncPreLogs (s : SessionConfig) (rc : RemoteConnection) : List (String × String) :=
  (rsyncPreMsgs s rc).map (fun m => ("info", m))

/-- Environment of one sync attempt that the scheduler does not control:
whether the source directory exists, the outcome of the rsync
subprocess (stdout and stderr on a zero exit, the error message
otherwise), and the measured duration in seconds. -/
structure ExecWorld where
  sourceExists : Bool
  execResult : Except String (String × String)
  duration : Nat

/-- syncWithRsync (lines 469 to 605): source-existence check, remote
connection requirement, command logging, subprocess execution and
error classification.  Returns the log entries it emitted and either
success or the (classified) raised error message. -/
def syncWithRsync (s : SessionConfig) (w : ExecWorld) :
    List (String × String) × Except String Unit :=
  if w.sourceExists then
    match s.remoteConnection with
    | none => ([("info", "Source directory verified: " ++ s.sourcePath)],
               .error "Remote connection configuration is required")
    | some rc =>
        match w.execResult with
        | .ok (stdout, stderr) =>
            (rsyncPreLogs s rc ++ rsyncStdoutLogs stdout w.duration
               ++ (if stderr ≠ "" && !jsIncludes stderr "warning" then
                     [("warning", "Rsync warnings: " ++ stderr)] else []),
             .ok ())
        | .error m =>
            (rsyncPreLogs s rc ++ [("error", "Rsync failed: " ++ m)],
             .error (classifyRsyncError m))
  else ([], .error ("Source directory does not exist: " ++ s.sourcePath))

/-! ## syncSession, triggerSync and the manual sync entry point
(SyncManager.ts lines 76 to 219, main.ts lines 312 to 385)

The fire-and-forget callback channels of the source (log sink,
notification callback, sync-start, sync-end, session persistence) are
recorded as separate event lists, in invocation order per channel. -/

/-- The externally observable callback invocations of one syncSession
run. -/
structure Trace where
  logs : List (String × String)
  notifs : List (String × String × String)
  syncStarts : List String
  syncEnds : List String
  saveCalls : Nat
deriving DecidableEq

/-- The empty trace. -/
def Trace.nil : Trace := ⟨[], [], [], [], 0⟩

/-- Presence of the optional constructor callbacks and the behavior of
the injected collaborators for one run. -/
structure SyncWorld where
  nowIso : String
  exec : ExecWorld
  saveResult : Except String Unit
  hasSaveCallback : Bool
  hasNotificationCallback : Bool
  hasStartCallback : Bool
  hasEndCallback : Bool

/-- Result of one syncSession run: the updated session list, the updated
session object when one was found, the callback trace, and the returned
or thrown outcome. -/
structure SyncOutcome where
  sessions : List SessionConfig
  updated : Option SessionConfig
  trace : Trace
  result : Except String Unit

/-- Replace the first session carrying the given id (the in-place object
mutation of the source). -/
def setFirst : List SessionConfig → String → SessionConfig → List SessionConfig
  | [], _, _ => []
  | s :: rest, i, s2 => if s.id = i then s2 :: rest else s :: setFirst rest i s2

/-- syncSession (lines 136 to 219): look the session up, emit the start
logs and the start callback, run syncWithRsync, then on success record
success state, persist (a persistence failure only logs a warning),
log completion and emit the end callback; on failure record the error
state, persist, emit one error notification, log the failure, emit the
end callback and re-raise. -/
def syncSession (sessions : List SessionConfig) (sessionId : String) (w : SyncWorld) :
    SyncOutcome :=
  match sessions.find? (fun t => t.id == sessionId) with
  | none => ⟨sessions, none, Trace.nil, .error "Session not found"⟩
  | some session =>
      let preLogs := [("info", "Starting sync for session: " ++ session.name),
                      ("info", "Source: " ++ session.sourcePath),
                      ("info", "Destination: " ++ session.destinationPath)]
      let starts := if w.hasStartCallback then [sessionId] else []
      let r := syncWithRsync session w.exec
      match r.2 with
      | .ok _ =>
          let session2 := { session with lastSync := some w.nowIso,
                                         lastSyncStatus := some "success",
                                         lastSyncError := none }
          let saveN := if w.hasSaveCallback then 1 else 0
          let saveLogs := if w.hasSaveCallback then
              (match w.saveResult with
               | .ok _ => []
               | .error e => [("warning", "Failed to save session data after sync: " ++ e)])
            else []
          ⟨setFirst sessions sessionId session2, some session2,
           ⟨preLogs ++ r.1 ++ saveLogs
              ++ [("success", "Sync completed for session: " ++ session.name)],
            [], starts, (if w.hasEndCallback then [sessionId] else []), saveN⟩,
           .ok ()⟩
      | .error e =>
          let session2 := { session with lastSync := some w.nowIso,
                                         lastSyncStatus := some "error",
                                         lastSyncError := some e }
          let saveN := if w.hasSaveCallback then 1 else 0
          let saveLogs := if w.hasSaveCallback then
              (match w.saveResult with
               | .ok _ => []
               | .error e2 => [("warning", "Failed to save session data after sync error: " ++ e2)])
            else []
          let notifsL := if w.hasNotificationCallback then
              [("imeSync - Sync Error",
                "Sync failed for \"" ++ session.name ++ "\": "
                  ++ (if e = "" then "Unknown error" else e),
                "error")]
            else []
          ⟨setFirst sessions sessionId session2, some session2,
           ⟨preLogs ++ r.1 ++ saveLogs
              ++ [("error", "Sync failed for session " ++ session.name ++ ": " ++ e)],
            notifsL, starts, (if w.hasEndCallback then [sessionId] else []), saveN⟩,
           .error e⟩

/-- triggerSync (lines 76 to 96): every trigger-initiated fire goes
through this gate.  Returns none when the fire is skipped (global pause
or session pause), otherwise the outcome of the executor. -/
def triggerSync (globallyPaused : Bool) (sessions : List SessionConfig)
    (sessionId : String) (w : SyncWorld) : Option SyncOutcome :=
  if globallyPaused then none
  else
    match sessions.find? (fun t => t.id == sessionId) with
    | some session =>
        if session.paused = some true then none
        else some (syncSession sessions sessionId w)
    | none => some (syncSession sessions sessionId w)

/-- The manual sync-now request handler of main.ts (lines 312 to 385):
it calls syncManager.syncSession directly and never consults the pause
flags; the first parameter records the pause state it ignores. -/
def syncNowHandler (_globallyPaused : Bool) (sessions : List SessionConfig)
    (sessionId : String) (w : SyncWorld) : SyncOutcome :=
  syncSession sessions sessionId w

/-! ## Schedule and interval trigger predicates
(setupScheduleTrigger lines 243 to 270, setupIntervalTrigger lines 333
to 353).  The wall clock is a triple of hour, minute and weekday. -/

/-- A sampled wall-clock instant: hour, minute, day of week (0 is
Sunday, as returned by getDay). -/
structure SimTime where
  hours : Nat
  minutes : Nat
  day : Fin 7
deriving DecidableEq

/-- The weekday names of line 252, indexed by getDay. -/
def dayNames : List String :=
  ["sunday", "monday", "tuesday", "wednesday", "thursday", "friday", "saturday"]

/-- Destructured trigger.time.split(&#58;).map(Number) of line 247: the
hour part and the minute part (none models NaN, including the missing
second component). -/
def parseHM (time : String) : Option Nat × Option Nat :=
  let parts := jsSplit time (Char.ofNat 58)
  (jsNumber (parts.getD 0 ""),
   match parts.get? 1 with
   | some p => jsNumber p
   | none => none)

/-- The per-minute check of setupScheduleTrigger (lines 245 to 264):
fire when hour and minute match and the day clause holds, where the day
clause of lines 255 to 257 is daily, or the current weekday name, or a
seven-entry days list. -/
def scheduleFires (t : ScheduleTrigger) (now : SimTime) : Bool :=
  let hm := parseHM t.time
  if some now.hours == hm.1 && some now.minutes == hm.2 then
    let currentDay := dayNames.getD now.day.val ""
    t.days.contains "daily" || t.days.contains currentDay || t.days.length == 7
  else false

/-- Day clause exactly as the claim words it: daily, or the current
weekday name is a member of the days list (no seven-entry alternative). -/
def specScheduleFires (t : ScheduleTrigger) (now : SimTime) : Bool :=
  let hm := parseHM t.time
  if some now.hours == hm.1 && some now.minutes == hm.2 then
    let currentDay := dayNames.getD now.day.val ""
    t.days.contains "daily" || t.days.contains currentDay
  else false

/-- The current HH:MM string of line 340. -/
def currentHHMM (now : SimTime) : String :=
  pad2 now.hours ++ ":" ++ pad2 now.minutes

/-- The per-tick body of setupIntervalTrigger (lines 336 to 349): when
both window bounds are truthy, skip if the current HH:MM string is
below the start or above the end (JavaScript string comparison),
otherwise request a sync. -/
def intervalTickFires (t : IntervalTrigger) (now : SimTime) : Bool :=
  if truthyStr t.startTime && truthyStr t.endTime then
    let cur := currentHHMM now
    if jsStrLt cur (t.startTime.getD "") || jsStrLt (t.endTime.getD "") cur then false
    else true
  else true

/-- Non-strict JavaScript string comparison. -/
def jsStrLe (a b : String) : Bool := !jsStrLt b a

/-- The active window exactly as the claim words it: in-window means
start inclusive, end exclusive, under lexical string comparison. -/
def specIntervalFires (t : IntervalTrigger) (now : SimTime) : Bool :=
  if truthyStr t.startTime && truthyStr t.endTime then
    let cur := currentHHMM now
    jsStrLe (t.startTime.getD "") cur && jsStrLt cur (t.endTime.getD "")
  else true

/-- Fire times of a platform setInterval timer armed at armTime with the
given period: one full period after arming and every period thereafter,
never immediately. -/
def setIntervalFiresAt (armTime periodMs tm : Nat) : Prop :=
  ∃ k : Nat, 1 ≤ k ∧ tm = armTime + k * periodMs

/-! ## Scheduler lifecycle model
(start lines 39 to 50, stop lines 52 to 68, updateSessions lines 70 to
74, setupTriggers lines 221 to 241, the setup routines for the five
trigger kinds, and the network monitoring loop lines 356 to 396).

Timer and watcher handles are numbered by an allocation counter; the
live list holds every handle that has been allocated and neither
cancelled nor closed.  The timers map, the file watcher map, the
network watcher slot, the last observed network identity and the
startup latch mirror the corresponding fields of the SyncManager
class. -/

/-- What a pending timer does when it fires. -/
inductive TimerKind where
  | scheduleCheck (sessionId : String)
  | intervalExec (sessionId : String)
  | debounce (sessionId : String) (path : String)
  | startupFire (sessionId : String)
  | startupLatch
  | networkCheck
deriving DecidableEq

/-- An allocated, not yet cancelled timer handle. -/
structure LiveTimer where
  tid : Nat
  kind : TimerKind
  delayMs : Nat
  repeats : Bool
deriving DecidableEq

/-- The runtime state of the SyncManager instance. -/
structure MgrState where
  sessions : List SessionConfig
  timers : List (String × Nat)
  fileWatchers : List (String × List Nat)
  networkWatcher : Option Nat
  currentSSID : Option String
  startupTriggersExecuted : Bool
  live : List LiveTimer
  liveWatchers : List Nat
  syncRequests : List String
  nextId : Nat

/-- Environment of one arm pass: which watch paths can be opened, and
the network identity sampled by the initial check of the monitoring
loop. -/
structure ArmEnv where
  watchOk : String → Bool
  ssidSample : Option String

/-- The clean state of a freshly constructed SyncManager. -/
def initState (sessions : List SessionConfig) : MgrState :=
  ⟨sessions, [], [], none, none, false, [], [], [], 0⟩

/-- Map.set on the string-keyed timer map: replace the value at the key
if present, append otherwise.  The previously stored handle, if any, is
not cancelled. -/
def mapSet : List (String × Nat) → String → Nat → List (String × Nat)
  | [], k, v => [(k, v)]
  | kv :: rest, k, v => if kv.1 = k then (k, v) :: rest else kv :: mapSet rest k v

/-- Lookup in the file watcher map with default empty list
(line 319). -/
def mapGetW (m : List (String × List Nat)) (k : String) : List Nat :=
  ((m.find? (fun kv => kv.1 == k)).map Prod.snd).getD []

/-- Map.set on the file watcher map. -/
def mapSetW : List (String × List Nat) → String → List Nat → List (String × List Nat)
  | [], k, v => [(k, v)]
  | kv :: rest, k, v => if kv.1 = k then (k, v) :: rest else kv :: mapSetW rest k v

/-- Whether a trigger is a WiFi trigger. -/
def isWifiTriggerB : Trigger → Bool
  | .wifi _ => true
  | _ => false

/-- Whether a session carries at least one WiFi trigger. -/
def hasWifiTrigger (s : SessionConfig) : Bool :=
  s.triggers.any isWifiTriggerB

/-- The triggerSync calls one trigger contributes during a checkNetwork
run (the two condition blocks of lines 371 to 381): nothing for
non-WiFi triggers; for a WiFi trigger, the session id once per
satisfied condition. -/
def wifiFireList (sessionId : String) (cur sample : Option String) : Trigger → List String
  | .wifi wt =>
      (if wt.onConnect && sample == some wt.ssid then [sessionId] else [])
      ++ (if !wt.onConnect && (cur == some wt.ssid && sample != some wt.ssid) then
            [sessionId] else [])
  | _ => []

/-- The triggerSync calls made by one run of the checkNetwork body
(lines 366 to 384) when the sampled identity differs from the stored
one: every session and every one of its WiFi triggers is evaluated
against the connect and disconnect conditions. -/
def checkNetworkFires (sessions : List SessionConfig) (cur sample : Option String) :
    List String :=
  sessions.flatMap (fun session =>
    session.triggers.flatMap (wifiFireList session.id cur sample))

/-- One run of checkNetwork (lines 357 to 389): on an identity change,
store the new identity and record the fired sync requests; otherwise do
nothing. -/
def checkNetwork (st : MgrState) (sample : Option String) : MgrState :=
  if sample ≠ st.currentSSID then
    { st with currentSSID := sample,
              syncRequests := st.syncRequests
                ++ checkNetworkFires st.sessions st.currentSSID sample }
  else st

/-- startNetworkMonitoring (lines 356 to 396): one initial check, then
one repeating ten-second timer stored in the network watcher slot. -/
def startNetworkMonitoring (st : MgrState) (env : ArmEnv) : MgrState :=
  let st1 := checkNetwork st env.ssidSample
  { st1 with networkWatcher := some st1.nextId,
             live := st1.live ++ [⟨st1.nextId, .networkCheck, 10000, true⟩],
             nextId := st1.nextId + 1 }

/-- setupScheduleTrigger (lines 243 to 270): when the time string is
truthy, allocate a repeating one-minute timer and store it in the map
under id-schedule (replacing, without cancelling, any previous
entry). -/
def setupScheduleTrigger (session : SessionConfig) (t : ScheduleTrigger) (st : MgrState) :
    MgrState :=
  if t.time ≠ "" then
    { st with live := st.live ++ [⟨st.nextId, .scheduleCheck session.id, 60000, true⟩],
              timers := mapSet st.timers (session.id ++ "-schedule") st.nextId,
              nextId := st.nextId + 1 }
  else st

/-- setupIntervalTrigger (lines 333 to 353): allocate a repeating timer
with the configured period and store it under id-interval. -/
def setupIntervalTrigger (session : SessionConfig) (t : IntervalTrigger) (st : MgrState) :
    MgrState :=
  { st with live := st.live
              ++ [⟨st.nextId, .intervalExec session.id, t.intervalMinutes * 60 * 1000, true⟩],
            timers := mapSet st.timers (session.id ++ "-interval") st.nextId,
            nextId := st.nextId + 1 }

/-- setupWiFiTrigger (lines 272 to 277): start the shared monitoring
loop only when it is not already running. -/
def setupWiFiTrigger (st : MgrState) (env : ArmEnv) : MgrState :=
  if st.networkWatcher = none then startNetworkMonitoring st env else st

/-- setupStartupTrigger (lines 324 to 331): when the one-time latch is
not yet set, schedule a one-shot timer for the configured delay.  The
handle is not stored in the timers map. -/
def setupStartupTrigger (session : SessionConfig) (t : StartupTrigger) (st : MgrState) :
    MgrState :=
  if !st.startupTriggersExecuted then
    { st with live := st.live ++ [⟨st.nextId, .startupFire session.id, t.delayMs, false⟩],
              nextId := st.nextId + 1 }
  else st

/-- The per-path watcher fold of setupFileChangeTrigger (lines 282 to
316): open one watcher per path that can be watched, collecting the
allocated handles. -/
def fcFold (env : ArmEnv) (paths : List String) (acc : MgrState × List Nat) :
    MgrState × List Nat :=
  paths.foldl (fun a p =>
    if env.watchOk p then
      ({ a.1 with liveWatchers := a.1.liveWatchers ++ [a.1.nextId],
                  nextId := a.1.nextId + 1 },
       a.2 ++ [a.1.nextId])
    else a) acc

/-- setupFileChangeTrigger (lines 279 to 322): open the watchers and
append them to the entry of the session in the watcher map. -/
def setupFileChangeTrigger (session : SessionConfig) (t : FileChangeTrigger)
    (st : MgrState) (env : ArmEnv) : MgrState :=
  let r := fcFold env t.watchPaths (st, [])
  { r.1 with fileWatchers := mapSetW r.1.fileWatchers session.id
              (mapGetW r.1.fileWatchers session.id ++ r.2) }

/-- The per-trigger dispatch of setupTriggers (lines 222 to 240). -/
def armTrigger (session : SessionConfig) (env : ArmEnv) (st : MgrState) :
    Trigger → MgrState
  | .schedule t => setupScheduleTrigger session t st
  | .wifi _ => setupWiFiTrigger st env
  | .fileChange t => setupFileChangeTrigger session t st env
  | .startup t => setupStartupTrigger session t st
  | .interval t => setupIntervalTrigger session t st

/-- setupTriggers (lines 221 to 241): arm each trigger of the session in
order. -/
def setupTriggers (session : SessionConfig) (env : ArmEnv) (st : MgrState) : MgrState :=
  session.triggers.foldl (armTrigger session env) st

/-- start (lines 39 to 50): arm every enabled session, then schedule the
one-shot one-second timer that will set the startup latch.  That handle
is not stored in the timers map either. -/
def MgrState.start (st : MgrState) (env : ArmEnv) : MgrState :=
  let st1 := st.sessions.foldl
    (fun acc session => if session.enabled then setupTriggers session env acc else acc) st
  { st1 with live := st1.live ++ [⟨st1.nextId, .startupLatch, 1000, false⟩],
             nextId := st1.nextId + 1 }

/-- stop (lines 52 to 68): cancel every timer stored in the timers map,
close every watcher stored in the watcher map, and cancel the network
watcher.  Handles that were never stored in those maps stay live. -/
def MgrState.stop (st : MgrState) : MgrState :=
  let cancelled := st.timers.map Prod.snd
    ++ (match st.networkWatcher with | some tid => [tid] | none => [])
  let closed := st.fileWatchers.foldl (fun acc kv => acc ++ kv.2) []
  { st with live := st.live.filter (fun lt => !(cancelled.contains lt.tid)),
            timers := [],
            fileWatchers := [],
            liveWatchers := st.liveWatchers.filter (fun wid => !(closed.contains wid)),
            networkWatcher := none }

/-- updateSessions (lines 70 to 74): stop, replace the collection,
start again. -/
def MgrState.updateSessions (st : MgrState) (newSessions : List SessionConfig)
    (env : ArmEnv) : MgrState :=
  MgrState.start { MgrState.stop st with sessions := newSessions } env

/-- The firing of the one-second latch timer scheduled by start
(lines 47 to 49). -/
def runStartupLatch (st : MgrState) : MgrState :=
  { st with startupTriggersExecuted := true }

/-- The session id owning a timer, when there is one. -/
def timerOwner : TimerKind → Option String
  | .scheduleCheck sid => some sid
  | .intervalExec sid => some sid
  | .debounce sid _ => some sid
  | .startupFire sid => some sid
  | .startupLatch => none
  | .networkCheck => none

/-- Whether a live timer is the network polling timer. -/
def isNetworkTimerB (lt : LiveTimer) : Bool :=
  match lt.kind with | .networkCheck => true | _ => false

/-- Number of live network polling timers. -/
def countNetworkTimers (l : List LiveTimer) : Nat :=
  (l.filter isNetworkTimerB).length

/-- Whether a live timer is a pending startup fire. -/
def isStartupFire (lt : LiveTimer) : Bool :=
  match lt.kind with | .startupFire _ => true | _ => false

/-- Network loop invariant: exactly one live polling timer when the
network watcher slot is occupied, none otherwise, and every live
polling timer repeats every ten seconds. -/
def netInv (st : MgrState) : Prop :=
  countNetworkTimers st.live = (if st.networkWatcher.isSome then 1 else 0)
  ∧ ∀ lt ∈ st.live, lt.kind = TimerKind.networkCheck
      → lt.delayMs = 10000 ∧ lt.repeats = true

/-- Ownership invariant over a session collection: every live timer
owned by a session id belongs to an enabled session of the collection,
and so does every entry of the file watcher map. -/
def ownerInv (A : List SessionConfig) (st : MgrState) : Prop :=
  (∀ lt ∈ st.live, ∀ sid, timerOwner lt.kind = some sid
      → ∃ s, s ∈ A ∧ s.enabled = true ∧ s.id = sid)
  ∧ ∀ kv ∈ st.fileWatchers, ∃ s, s ∈ A ∧ s.enabled = true ∧ s.id = kv.1

/-! ## Concrete inputs used by witnesses and counterexamples -/

/-- Default arm environment: every path watchable, no network found by
the initial sample. -/
def armEnvDefault : ArmEnv := ⟨fun _ => true, none⟩

/-- A session whose only trigger is a startup trigger with a pending
one-minute delay. -/
def startupSession : SessionConfig :=
  { id := "su", name := "Startup session", sourcePath := "/tmp/a",
    destinationPath := "rsync://u@h:873/m/p", enabled := true, paused := none,
    triggers := [.startup ⟨60000⟩], excludePatterns := none, rsyncOptions := none,
    remoteConnection := none, lastSync := none, lastSyncStatus := none,
    lastSyncError := none }

/-- An enabled session with a connect-type WiFi trigger on the Office
network. -/
def wifiSessionA : SessionConfig :=
  { id := "wa", name := "WiFi A", sourcePath := "/tmp/a",
    destinationPath := "rsync://u@h:873/m/p", enabled := true, paused := none,
    triggers := [.wifi ⟨"Office", true⟩], excludePatterns := none, rsyncOptions := none,
    remoteConnection := none, lastSync := none, lastSyncStatus := none,
    lastSyncError := none }

/-- A disabled session with the same WiFi trigger. -/
def wifiSessionB : SessionConfig :=
  { id := "wb", name := "WiFi B", sourcePath := "/tmp/b",
    destinationPath := "rsync://u@h:873/m/p", enabled := false, paused := none,
    triggers := [.wifi ⟨"Office", true⟩], excludePatterns := none, rsyncOptions := none,
    remoteConnection := none, lastSync := none, lastSyncStatus := none,
    lastSyncError := none }

/-- Schedule trigger with seven day entries none of which is the current
weekday. -/
def schedTrigSeven : ScheduleTrigger :=
  ⟨"14:30", ["monday", "monday", "monday", "monday", "monday", "monday", "monday"]⟩

/-- The schedule trigger of the spec example. -/
def schedTrigMonday : ScheduleTrigger := ⟨"14:30", ["monday"]⟩

/-- Tuesday 14:30. -/
def tue1430 : SimTime := ⟨14, 30, ⟨2, by decide⟩⟩

/-- Monday 14:30. -/
def mon1430 : SimTime := ⟨14, 30, ⟨1, by decide⟩⟩

/-- The interval trigger of the spec example: thirty minutes, window
09:00 to 17:00. -/
def intTrigExample : IntervalTrigger := ⟨30, some "09:00", some "17:00"⟩

/-- 17:00 on a Monday. -/
def mon1700 : SimTime := ⟨17, 0, ⟨1, by decide⟩⟩

/-- Noon on a Monday. -/
def mon1200 : SimTime := ⟨12, 0, ⟨1, by decide⟩⟩

/-- World for the failure-path counterexample: source present, the
subprocess raises a message mentioning both permission denial and
connection refusal, all callbacks wired, persistence succeeding. -/
def cexWorld : SyncWorld :=
  ⟨"2026-10-11T00:00:00.000Z", ⟨true, .error "Permission denied - Connection refused", 1⟩,
   .ok (), true, true, true, true⟩

/-- World for the failure-path witness: a pure connection-refused
subprocess failure. -/
def refusedWorld : SyncWorld :=
  ⟨"2026-10-11T00:00:00.000Z", ⟨true, .error "rsync: Connection refused (111)", 1⟩,
   .ok (), true, true, true, true⟩

/-- World for the save-failure witness: subprocess succeeds, persistence
throws. -/
def saveFailWorld : SyncWorld :=
  ⟨"2026-10-11T00:00:00.000Z", ⟨true, .ok ("", ""), 2⟩,
   .error "EACCES", true, true, true, true⟩

/-- A paused session, used by the pause-gate witness. -/
def pausedSession : SessionConfig :=
  { id := "ps", name := "Paused session", sourcePath := "/tmp/p",
    destinationPath := "rsync://u@h:873/m/p", enabled := true, paused := some true,
    triggers := [], excludePatterns := none, rsyncOptions := none,
    remoteConnection := some exRC, lastSync := none, lastSyncStatus := none,
    lastSyncError := none }

/-! ## Theorems -/

theorem strExt (s t : String) (h : s.data = t.data) : s = t := by
  cases s; cases t; exact congrArg String.mk h

theorem strAppendAssoc (a b c : String) : (a ++ b) ++ c = a ++ (b ++ c) := by
  apply strExt
  show (a.data ++ b.data) ++ c.data = a.data ++ (b.data ++ c.data)
  exact List.append_assoc ..

theorem strAppendEmptyRight (s : String) : s ++ "" = s := by
  apply strExt
  show s.data ++ [] = s.data
  simp

theorem glueSp_append (l1 l2 : List String) :
    glueSp (l1 ++ l2) = glueSp l1 ++ glueSp l2 := by
  induction l1 with
  | nil => simp [glueSp]
  | cons t ts ih =>
      show (" " ++ t) ++ glueSp (ts ++ l2) = ((" " ++ t) ++ glueSp ts) ++ glueSp l2
      rw [ih]
      simp only [strAppendAssoc]

theorem intercalate_go_eq (as : List String) : ∀ acc : String,
    String.intercalate.go acc " " as = acc ++ glueSp as := by
  induction as with
  | nil => intro acc; simp [String.intercalate.go, glueSp, strAppendEmptyRight]
  | cons a as ih =>
      intro acc
      simp only [String.intercalate.go, glueSp, ih]
      simp only [strAppendAssoc]

theorem intercalate_eq_glue (a : String) (as : List String) :
    String.intercalate " " (a :: as) = a ++ glueSp as := by
  simp only [String.intercalate]
  exact intercalate_go_eq as a

theorem spaceExclude (x : String) : " --exclude=" ++ x = " " ++ ("--exclude=" ++ x) := by
  rw [← strAppendAssoc]
  have h : (" " ++ "--exclude=") = " --exclude=" := by decide
  rw [h]

theorem excludeFold_eq (pats : List String) : ∀ cmd : String,
    excludeFold pats cmd
      = cmd ++ glueSp (pats.filterMap
          (fun p => if jsTrim p ≠ "" then some ("--exclude=" ++ squote (jsTrim p)) else none)) := by
  induction pats with
  | nil => intro cmd; simp [excludeFold, glueSp, strAppendEmptyRight]
  | cons p ps ih =>
      intro cmd
      by_cases h : jsTrim p = ""
      · simp only [excludeFold, List.foldl_cons, h, ne_eq, not_true_eq_false, if_neg,
          List.filterMap_cons, ite_false]
        simpa [excludeFold] using ih cmd
      · simp only [excludeFold, List.foldl_cons, h, ne_eq, not_false_eq_true, if_pos,
          List.filterMap_cons, ite_true]
        have hi := ih (cmd ++ (" --exclude=" ++ squote (jsTrim p)))
        simp only [excludeFold] at hi
        rw [hi, glueSp, spaceExclude]
        simp only [strAppendAssoc]

theorem glueSp_single (t : String) : glueSp [t] = " " ++ t := by
  show (" " ++ t) ++ glueSp [] = " " ++ t
  exact strAppendEmptyRight _

theorem rsyncCommandOf_glue (s : SessionConfig) :
    rsyncCommandOf s
      = "rsync -av --progress --stats --human-readable"
        ++ glueSp (excludeTokens s
            ++ (if s.updateOnlyFlag then [] else ["--ignore-times"])
            ++ (if s.deleteFlag then ["--delete"] else [])
            ++ (if s.compressFlag then ["-z"] else [])
            ++ (if s.permsFlag then ["-p"] else [])
            ++ [dquote (s.sourcePath ++ "/"), dquote (s.destinationPath ++ "/")]) := by
  have hL0 : ("rsync -av --progress --stats" ++ " --human-readable")
      = "rsync -av --progress --stats --human-readable" := by decide
  have e1 : (if (s.excludePatterns.getD []).length > 0
        then excludeFold (s.excludePatterns.getD []) ("rsync -av --progress --stats" ++ " --human-readable")
        else ("rsync -av --progress --stats" ++ " --human-readable"))
      = "rsync -av --progress --stats --human-readable" ++ glueSp (excludeTokens s) := by
    by_cases he : (s.excludePatterns.getD []) = []
    · simp [he, excludeTokens, glueSp, strAppendEmptyRight, hL0]
    · have hlen : (s.excludePatterns.getD []).length > 0 := by
        cases hx : (s.excludePatterns.getD []) with
        | nil => exact absurd hx he
        | cons a l => simp [hx]
      simp only [hlen, if_pos, excludeFold_eq, excludeTokens, hL0]
  have e2 : ∀ c : String, (if !s.updateOnlyFlag then c ++ " --ignore-times" else c)
      = c ++ glueSp (if s.updateOnlyFlag then [] else ["--ignore-times"]) := by
    intro c
    cases s.updateOnlyFlag with
    | false =>
        have hm : glueSp ["--ignore-times"] = " --ignore-times" := by decide
        simp [hm]
    | true => simp [glueSp, strAppendEmptyRight]
  have e3 : ∀ c : String, (if s.deleteFlag then c ++ " --delete" else c)
      = c ++ glueSp (if s.deleteFlag then ["--delete"] else []) := by
    intro c
    cases s.deleteFlag with
    | false => simp [glueSp, strAppendEmptyRight]
    | true =>
        have hm : glueSp ["--delete"] = " --delete" := by decide
        simp [hm]
  have e4 : ∀ c : String, (if s.compressFlag then c ++ " -z" else c)
      = c ++ glueSp (if s.compressFlag then ["-z"] else []) := by
    intro c
    cases s.compressFlag with
    | false => simp [glueSp, strAppendEmptyRight]
    | true =>
        have hm : glueSp ["-z"] = " -z" := by decide
        simp [hm]
  have e5 : ∀ c : String, (if s.permsFlag then c ++ " -p" else c)
      = c ++ glueSp (if s.permsFlag then ["-p"] else []) := by
    intro c
    cases s.permsFlag with
    | false => simp [glueSp, strAppendEmptyRight]
    | true =>
        have hm : glueSp ["-p"] = " -p" := by decide
        simp [hm]
  have e6 : ∀ a b : String, (" " ++ dquote a ++ " " ++ dquote b) = glueSp [dquote a, dquote b] := by
    intro a b
    show _ = (" " ++ dquote a) ++ glueSp [dquote b]
    rw [glueSp_single]
    simp only [strAppendAssoc]
  simp only [rsyncCommandOf]
  rw [e1, e2, e3, e4, e5, e6]
  simp only [glueSp_append, strAppendAssoc]

theorem specRsyncArgs_glue (s : SessionConfig) :
    String.intercalate " " (specRsyncArgs s)
      = "rsync -av --progress --stats --human-readable"
        ++ glueSp (excludeTokens s
            ++ (if s.updateOnlyFlag then [] else ["--ignore-times"])
            ++ (if s.deleteFlag then ["--delete"] else [])
            ++ (if s.compressFlag then ["-z"] else [])
            ++ (if s.permsFlag then ["-p"] else [])
            ++ [dquote (s.sourcePath ++ "/"), dquote (s.destinationPath ++ "/")]) := by
  have hbase : glueSp ["-av", "--progress", "--stats", "--human-readable"]
      = " -av --progress --stats --human-readable" := by decide
  have hmerge : ("rsync" ++ " -av --progress --stats --human-readable")
      = "rsync -av --progress --stats --human-readable" := by decide
  show String.intercalate " "
      ("rsync" :: ((((((["-av", "--progress", "--stats", "--human-readable"]
            ++ (excludeTokens s))
            ++ (if s.updateOnlyFlag then [] else ["--ignore-times"]))
            ++ (if s.deleteFlag then ["--delete"] else []))
            ++ (if s.compressFlag then ["-z"] else []))
            ++ (if s.permsFlag then ["-p"] else []))
            ++ [dquote (s.sourcePath ++ "/"), dquote (s.destinationPath ++ "/")])) = _
  rw [intercalate_eq_glue]
  simp only [glueSp_append]
  rw [hbase]
  simp only [strAppendAssoc]
  rw [← strAppendAssoc "rsync" " -av --progress --stats --human-readable", hmerge]

/-- C1, main theorem.  For every session with a remote connection the
rsync command is exactly the space-joined token list of the spec (base
flags, exclude flags for the non-empty trimmed patterns before the
option flags, then the four conditional option flags, then quoted
source and destination); the command is independent of the password,
which reaches only the RSYNC_PASSWORD environment entry. -/
theorem rsync_command_deterministic (s : SessionConfig) (rc : RemoteConnection)
    (h : s.remoteConnection = some rc) :
    rsyncCommandOf s = String.intercalate " " (specRsyncArgs s)
    ∧ (∀ pw : Option String, rsyncCommandOf (withPassword s pw) = rsyncCommandOf s)
    ∧ (∀ p : String, rc.password = some p → p ≠ "" → rsyncEnvPassword s = some p) := by
  refine ⟨(rsyncCommandOf_glue s).trans (specRsyncArgs_glue s).symm, ?_, ?_⟩
  · intro pw
    rfl
  · intro p hp hne
    simp [rsyncEnvPassword, h, hp, hne]

/-- C1, witness: the hypotheses hold of the example session and the
command characterization evaluates on it. -/
theorem rsync_command_deterministic_witness :
    exSession.remoteConnection = some exRC
    ∧ rsyncCommandOf exSession = String.intercalate " " (specRsyncArgs exSession) :=
  ⟨rfl, (rsync_command_deterministic exSession exRC rfl).1⟩

/-! ### Log bookkeeping lemmas for the executor trace -/

theorem stdoutLoop_logs_info (ls : List String) :
    ∀ f : Nat, ∀ sz : String, ∀ e ∈ (stdoutLoop ls f sz).1, e.1 = "info" := by
  induction ls with
  | nil => intro f sz e h; simp [stdoutLoop] at h
  | cons l ls ih =>
      intro f sz e h
      simp only [stdoutLoop] at h
      split at h
      · rcases List.mem_cons.mp h with rfl | h2
        · rfl
        · exact ih f sz e h2
      · split at h
        · split at h
          · exact ih _ sz e h
          · exact ih f sz e h
        · split at h
          · split at h
            · exact ih f _ e h
            · exact ih f sz e h
          · exact ih f sz e h

theorem transfer_ne_sync (x y : String) :
    ("Transfer completed in " ++ x) ≠ ("Sync completed for session: " ++ y) := by
  intro h
  have h3 : "Transfer completed in ".data ++ x.data
      = "Sync completed for session: ".data ++ y.data := congrArg String.data h
  have h4 : "Transfer completed in ".data
      = Char.ofNat 84 :: "ransfer completed in ".data := by decide
  have h5 : "Sync completed for session: ".data
      = Char.ofNat 83 :: "ync completed for session: ".data := by decide
  rw [h4, h5] at h3
  simp at h3

theorem syncCompleted_notin_stdout (out : String) (d : Nat) (n : String) :
    ("success", "Sync completed for session: " ++ n) ∉ rsyncStdoutLogs out d := by
  intro h
  unfold rsyncStdoutLogs at h
  by_cases ho : out = ""
  · simp [ho] at h
  · simp only [ho, ne_eq, not_false_eq_true, if_pos] at h
    rcases List.mem_append.mp h with h | h
    · rcases List.mem_append.mp h with h | h
      · have := stdoutLoop_logs_info _ _ _ _ h
        simp at this
      · rcases List.mem_cons.mp h with h | h
        · have := congrArg Prod.snd h
          exact transfer_ne_sync _ _ this.symm
        · simp at h
    · split at h <;> simp at h

theorem syncCompleted_notin_preLogs (s : SessionConfig) (rc : RemoteConnection) (n : String) :
    ("success", "Sync completed for session: " ++ n) ∉ rsyncPreLogs s rc := by
  intro h
  rcases List.mem_map.mp h with ⟨m, _, hm⟩
  have := congrArg Prod.fst hm
  simp at this

/-! ### C3: the pause gate -/

/-- C3.  A trigger-initiated fire invokes the executor exactly when the
global pause flag is off and the session is not paused; a gated fire is
a silent skip with no outcome; the manual sync-now entry point is the
bare executor call, which proceeds (its start log is emitted) whatever
the two pause flags hold. -/
theorem trigger_pause_gate (g : Bool) (sessions : List SessionConfig) (s : SessionConfig)
    (i : String) (w : SyncWorld)
    (hfind : sessions.find? (fun t => t.id == i) = some s) :
    ((triggerSync g sessions i w).isSome ↔ (g = false ∧ s.paused ≠ some true))
    ∧ ((g = true ∨ s.paused = some true) → triggerSync g sessions i w = none)
    ∧ syncNowHandler g sessions i w = syncSession sessions i w
    ∧ (∃ rest, (syncNowHandler g sessions i w).trace.logs
        = ("info", "Starting sync for session: " ++ s.name) :: rest) := by
  refine ⟨?_, ?_, rfl, ?_⟩
  · cases g with
    | true => simp [triggerSync]
    | false =>
        by_cases hp : s.paused = some true
        · simp [triggerSync, hfind, hp]
        · simp [triggerSync, hfind, hp]
  · rintro (hg | hp)
    · subst hg; simp [triggerSync]
    · simp [triggerSync, hfind, hp]
  · simp only [syncNowHandler, syncSession, hfind]
    cases h2 : (syncWithRsync s w.exec).2 with
    | ok u => exact ⟨_, rfl⟩
    | error e => exact ⟨_, rfl⟩

/-- C3, witness: with the global flag off but the session paused, the
trigger-initiated fire is skipped. -/
theorem trigger_pause_gate_witness :
    pausedSession.paused = some true
    ∧ triggerSync false [pausedSession] "ps" refusedWorld = none :=
  ⟨rfl, (trigger_pause_gate false [pausedSession] pausedSession "ps" refusedWorld
      (by decide)).2.1 (Or.inr rfl)⟩

/-! ### C10: persistence failure after a successful sync -/

/-- C10.  When the subprocess succeeds but the persistence callback
throws, syncSession still completes: the result is success, the session
records success with the error cleared, the completion success log and
the end callback each fire exactly once, the persistence failure is
logged as a warning, and no notification is emitted. -/
theorem sync_save_failure_after_success
    (sessions : List SessionConfig) (s : SessionConfig) (rc : RemoteConnection)
    (i : String) (w : SyncWorld) (out err em : String)
    (hfind : sessions.find? (fun t => t.id == i) = some s)
    (hrc : s.remoteConnection = some rc)
    (hsrc : w.exec.sourceExists = true)
    (hexec : w.exec.execResult = .ok (out, err))
    (hsave : w.hasSaveCallback = true)
    (hsaveRes : w.saveResult = .error em)
    (hend : w.hasEndCallback = true) :
    (syncSession sessions i w).result = .ok ()
    ∧ (syncSession sessions i w).updated
        = some { s with lastSync := some w.nowIso, lastSyncStatus := some "success",
                        lastSyncError := none }
    ∧ (syncSession sessions i w).trace.logs.count
        ("success", "Sync completed for session: " ++ s.name) = 1
    ∧ (syncSession sessions i w).trace.syncEnds = [i]
    ∧ ("warning", "Failed to save session data after sync: " ++ em)
        ∈ (syncSession sessions i w).trace.logs
    ∧ (syncSession sessions i w).trace.notifs = [] := by
  have h1 : syncWithRsync s w.exec
      = (rsyncPreLogs s rc ++ rsyncStdoutLogs out w.exec.duration
          ++ (if err ≠ "" && !jsIncludes err "warning" then
                [("warning", "Rsync warnings: " ++ err)] else []),
         .ok ()) := by
    unfold syncWithRsync
    rw [hsrc, hrc, hexec]
    simp
  have hnot : ("success", "Sync completed for session: " ++ s.name)
      ∉ ([("info", "Starting sync for session: " ++ s.name),
          ("info", "Source: " ++ s.sourcePath),
          ("info", "Destination: " ++ s.destinationPath)]
         ++ (syncWithRsync s w.exec).1
         ++ [("warning", "Failed to save session data after sync: " ++ em)]) := by
    intro hmem
    rcases List.mem_append.mp hmem with hmem | hmem
    · rcases List.mem_append.mp hmem with hmem | hmem
      · simp at hmem
      · rw [h1] at hmem
        rcases List.mem_append.mp hmem with hmem | hmem
        · rcases List.mem_append.mp hmem with hmem | hmem
          · exact syncCompleted_notin_preLogs s rc s.name hmem
          · exact syncCompleted_notin_stdout out w.exec.duration s.name hmem
        · split at hmem <;> simp at hmem
    · simp at hmem
  have h2 : (syncWithRsync s w.exec).2 = .ok () := by rw [h1]
  refine ⟨?_, ?_, ?_, ?_, ?_, ?_⟩
  · simp [syncSession, hfind, h2]
  · simp [syncSession, hfind, h2]
  · simp only [syncSession, hfind, h2, hsave, hsaveRes, hend, if_true, ite_true]
    rw [List.count_append, List.count_eq_zero.mpr hnot]
    simp
  · simp [syncSession, hfind, h2, hend]
  · simp [syncSession, hfind, h2, hsave, hsaveRes]
  · simp [syncSession, hfind, h2]

/-- C10, witness: evaluated on the example session with a succeeding
subprocess and a throwing persistence callback. -/
theorem sync_save_failure_witness :
    (syncSession [exSession] "s1" saveFailWorld).result = .ok ()
    ∧ ("warning", "Failed to save session data after sync: EACCES")
        ∈ (syncSession [exSession] "s1" saveFailWorld).trace.logs := by
  have h := sync_save_failure_after_success [exSession] exSession exRC "s1" saveFailWorld
    "" "" "EACCES" (by decide) rfl rfl rfl rfl rfl rfl
  refine ⟨h.1, ?_⟩
  have hm := h.2.2.2.2.1
  have heq : ("Failed to save session data after sync: " ++ "EACCES")
      = "Failed to save session data after sync: EACCES" := by decide
  rw [heq] at hm
  exact hm

/-! ### C2: the failure path -/

/-- C2, amended.  On a subprocess failure syncSession records the time,
the error status and the classified failure message, calls the
persistence callback once, emits exactly one error notification built
from the session name and the message, emits the end callback, and
re-raises.  The connection-refused-specific message is produced when
the subprocess text contains Connection refused and neither of the two
patterns checked earlier, Permission denied and No such file or
directory.  The end callback fires on the success path as well. -/
theorem sync_failure_path
    (sessions : List SessionConfig) (s : SessionConfig) (rc : RemoteConnection)
    (i : String) (w : SyncWorld) (m : String)
    (hfind : sessions.find? (fun t => t.id == i) = some s)
    (hrc : s.remoteConnection = some rc)
    (hsrc : w.exec.sourceExists = true)
    (hexec : w.exec.execResult = .error m)
    (hsave : w.hasSaveCallback = true)
    (hnotif : w.hasNotificationCallback = true)
    (hend : w.hasEndCallback = true) :
    (syncSession sessions i w).updated
      = some { s with lastSync := some w.nowIso, lastSyncStatus := some "error",
                      lastSyncError := some (classifyRsyncError m) }
    ∧ (syncSession sessions i w).trace.saveCalls = 1
    ∧ (syncSession sessions i w).trace.notifs
      = [("imeSync - Sync Error",
          "Sync failed for \"" ++ s.name ++ "\": "
            ++ (if classifyRsyncError m = "" then "Unknown error" else classifyRsyncError m),
          "error")]
    ∧ (syncSession sessions i w).trace.syncEnds = [i]
    ∧ (syncSession sessions i w).result = .error (classifyRsyncError m)
    ∧ (jsIncludes m "Connection refused" = true → jsIncludes m "Permission denied" = false →
        jsIncludes m "No such file or directory" = false →
        classifyRsyncError m
          = "Connection refused. Check if rsync daemon is running on the remote host.")
    ∧ (∀ out err : String,
        (syncSession sessions i
          { w with exec := { w.exec with execResult := .ok (out, err) } }).trace.syncEnds
        = [i]) := by
  have h2 : (syncWithRsync s w.exec).2 = .error (classifyRsyncError m) := by
    unfold syncWithRsync
    rw [hsrc, hrc, hexec]
    simp
  refine ⟨?_, ?_, ?_, ?_, ?_, ?_, ?_⟩
  · simp [syncSession, hfind, h2]
  · simp [syncSession, hfind, h2, hsave]
  · simp [syncSession, hfind, h2, hnotif]
  · simp [syncSession, hfind, h2, hend]
  · simp [syncSession, hfind, h2]
  · intro hc hp hn
    simp [classifyRsyncError, hc, hp, hn]
  · intro out err
    have h3 : (syncWithRsync s { w.exec with execResult := .ok (out, err) }).2 = .ok () := by
      unfold syncWithRsync
      rw [show ({ w.exec with execResult := .ok (out, err) } : ExecWorld).sourceExists
            = true from hsrc, hrc]
      simp
    simp [syncSession, hfind, h3, hend]

/-- C2, counterexample to the claim as frozen: a subprocess error text
containing Connection refused does not always yield the
connection-refused-specific message, because Permission denied is
checked first. -/
theorem sync_failure_misclassified_cex :
    jsIncludes "Permission denied - Connection refused" "Connection refused" = true
    ∧ ((syncSession [exSession] "s1" cexWorld).updated.bind SessionConfig.lastSyncError)
      = some "Permission denied. Check read permissions on source and write permissions on destination."
    ∧ jsIncludes
        "Permission denied. Check read permissions on source and write permissions on destination."
        "Connection refused" = false := by
  decide

/-- C2, witness: a pure connection-refused failure on the example
session produces the classified message. -/
theorem sync_failure_path_witness :
    ([exSession].find? (fun t => t.id == "s1") = some exSession)
    ∧ (syncSession [exSession] "s1" refusedWorld).result
      = .error "Connection refused. Check if rsync daemon is running on the remote host." := by
  refine ⟨by decide, ?_⟩
  have h := sync_failure_path [exSession] exSession exRC "s1" refusedWorld
    "rsync: Connection refused (111)" (by decide) rfl rfl rfl rfl rfl rfl
  rw [h.2.2.2.2.1]
  have hc : classifyRsyncError "rsync: Connection refused (111)"
      = "Connection refused. Check if rsync daemon is running on the remote host." := by decide
  rw [hc]

/-! ### C6: the schedule predicate -/

/-- C6, amended.  With a parseable trigger time, the per-minute check
fires exactly when hour and minute match and the day clause holds,
where the day clause is: the days list contains daily, or it contains
the current weekday name, or it has exactly seven entries (the
all-days-selected shortcut of line 257).  The trigger of the spec
example, 14:30 on monday, fires exactly on Monday 14:30. -/
theorem schedule_fires_iff (t : ScheduleTrigger) (now : SimTime) (h m : Nat)
    (hparse : parseHM t.time = (some h, some m)) :
    (scheduleFires t now = true
      ↔ (now.hours = h ∧ now.minutes = m
         ∧ (t.days.contains "daily" = true
            ∨ t.days.contains (dayNames.getD now.day.val "") = true
            ∨ t.days.length = 7)))
    ∧ (∀ nw : SimTime, scheduleFires schedTrigMonday nw = true
        ↔ (nw.hours = 14 ∧ nw.minutes = 30 ∧ nw.day.val = 1)) := by
  constructor
  · unfold scheduleFires
    rw [hparse]
    by_cases hh : now.hours = h
    · by_cases hm2 : now.minutes = m
      · simp [hh, hm2, Bool.or_eq_true, or_assoc]
      · simp [hh, hm2]
    · simp [hh]
  · intro nw
    unfold scheduleFires schedTrigMonday
    have hp : parseHM "14:30" = (some 14, some 30) := by decide
    rw [hp]
    by_cases hh : nw.hours = 14
    · by_cases hm2 : nw.minutes = 30
      · simp only [hh, hm2]
        have hdays : ∀ d : Fin 7,
            ((["monday"] : List String).contains "daily"
              || (["monday"] : List String).contains (dayNames.getD d.val "")
              || (["monday"] : List String).length == 7) = true ↔ d.val = 1 := by
          decide
        simpa using hdays nw.day
      · simp [hm2]
    · simp [hh]

/-- C6, counterexample to the claim as frozen: a seven-entry days list
that does not contain the current weekday still fires (Tuesday 14:30,
days seven copies of monday), while the claim-side predicate does not
fire. -/
theorem schedule_seven_days_cex :
    scheduleFires schedTrigSeven tue1430 = true
    ∧ specScheduleFires schedTrigSeven tue1430 = false := by
  decide

/-- C6, witness: the amended equivalence evaluated at Monday and
Tuesday 14:30 for the spec example trigger. -/
theorem schedule_fires_iff_witness :
    parseHM schedTrigMonday.time = (some 14, some 30)
    ∧ scheduleFires schedTrigMonday mon1430 = true
    ∧ scheduleFires schedTrigMonday tue1430 = false := by
  refine ⟨by decide, ?_, ?_⟩
  · exact ((schedule_fires_iff schedTrigMonday mon1430 14 30 (by decide)).2 mon1430).mpr
      (by decide)
  · have h := ((schedule_fires_iff schedTrigMonday tue1430 14 30 (by decide)).2 tue1430)
    by_contra hc
    have : scheduleFires schedTrigMonday tue1430 = true := by
      revert hc
      cases scheduleFires schedTrigMonday tue1430 <;> simp
    have h2 := h.mp this
    exact absurd h2.2.2 (by decide)

/-! ### C7: the interval window -/

/-- C7, amended.  With both window bounds present and non-empty, an
interval tick requests a sync exactly when the current HH:MM string
lies in the window inclusively at both ends under lexical string
comparison; the armed timer repeats with period intervalMinutes times
sixty thousand milliseconds, ticking at every whole period after
arming and never immediately. -/
theorem interval_window_iff (t : IntervalTrigger) (now : SimTime) (sb eb : String)
    (armT : Nat)
    (hs : t.startTime = some sb) (he : t.endTime = some eb)
    (hs0 : sb ≠ "") (he0 : eb ≠ "") (hpos : 0 < t.intervalMinutes) :
    (intervalTickFires t now = true
      ↔ (jsStrLe sb (currentHHMM now) = true ∧ jsStrLe (currentHHMM now) eb = true))
    ∧ (∀ (session : SessionConfig) (st : MgrState),
        (setupIntervalTrigger session t st).live
          = st.live ++ [⟨st.nextId, TimerKind.intervalExec session.id,
              t.intervalMinutes * 60 * 1000, true⟩])
    ∧ (∀ tm, setIntervalFiresAt armT (t.intervalMinutes * 60 * 1000) tm
        → armT + t.intervalMinutes * 60 * 1000 ≤ tm)
    ∧ (∀ k, 1 ≤ k → setIntervalFiresAt armT (t.intervalMinutes * 60 * 1000)
        (armT + k * (t.intervalMinutes * 60 * 1000)))
    ∧ ¬ setIntervalFiresAt armT (t.intervalMinutes * 60 * 1000) armT := by
  refine ⟨?_, ?_, ?_, ?_, ?_⟩
  · unfold intervalTickFires jsStrLe
    rw [hs, he]
    simp only [truthyStr, hs0, he0]
    simp only [Option.getD_some]
    by_cases h1 : jsStrLt (currentHHMM now) sb = true
    · simp [h1, hs0, he0]
    · by_cases h2 : jsStrLt eb (currentHHMM now) = true
      · simp [h1, h2, hs0, he0]
      · simp [h1, h2, hs0, he0]
  · intro session st
    rfl
  · rintro tm ⟨k, hk, rfl⟩
    have : t.intervalMinutes * 60 * 1000 ≤ k * (t.intervalMinutes * 60 * 1000) :=
      Nat.le_mul_of_pos_left _ hk
    omega
  · intro k hk
    exact ⟨k, hk, rfl⟩
  · rintro ⟨k, hk, hx⟩
    have hp : 0 < t.intervalMinutes * 60 * 1000 := by positivity
    have : 0 < k * (t.intervalMinutes * 60 * 1000) := Nat.mul_pos hk hp
    omega

/-- C7, counterexample to the claim as frozen: at exactly the window
end (17:00 for a 09:00 to 17:00 window) the tick fires, while the
claim-side end-exclusive predicate says it must not. -/
theorem interval_end_inclusive_cex :
    intervalTickFires intTrigExample mon1700 = true
    ∧ specIntervalFires intTrigExample mon1700 = false := by
  decide

/-- C7, witness: the amended equivalence evaluated at noon (in-window)
and 17:00 (still firing, end inclusive) for the spec example
trigger. -/
theorem interval_window_iff_witness :
    intTrigExample.startTime = some "09:00"
    ∧ intervalTickFires intTrigExample mon1200 = true
    ∧ setIntervalFiresAt 5 (intTrigExample.intervalMinutes * 60 * 1000) (5 + 1800000) := by
  refine ⟨rfl, ?_, ?_⟩
  · exact (interval_window_iff intTrigExample mon1200 "09:00" "17:00" 5 rfl rfl
      (by decide) (by decide) (by decide)).1.mpr (by decide)
  · have h := (interval_window_iff intTrigExample mon1200 "09:00" "17:00" 5 rfl rfl
      (by decide) (by decide) (by decide)).2.2.2.1 1 (by decide)
    simpa using h

/-! ### C4 and C5: disarm completeness and the startup latch -/

/-- C4, evaluation at the failing input.  Arming a session holding a
startup trigger with a pending sixty-second delay and then calling
stop leaves the startup timer live: its handle was never stored in the
timers map (lines 324 to 331), so the cancellation loop of stop
(lines 52 to 68) cannot reach it and it fires after Disarm returns. -/
theorem stop_leaves_startup_timer :
    ((MgrState.stop (MgrState.start (initState [startupSession]) armEnvDefault)).live.filter
        isStartupFire).length = 1
    ∧ (MgrState.stop (MgrState.start (initState [startupSession]) armEnvDefault)).timers = [] := by
  decide

/-- C5, evaluation at the failing input.  The latch that suppresses
startup triggers is only set by a one-second timer scheduled inside
start (lines 46 to 49); immediately after the initial arm pass it is
still false, so a Rearm performed inside that window arms a second
startup timer (two are then pending, and the first was not cancelled
because it is absent from the timers map).  Once the latch timer has
fired, re-arming schedules no further startup timer. -/
theorem rearm_before_latch_rearms_startup :
    (MgrState.start (initState [startupSession]) armEnvDefault).startupTriggersExecuted = false
    ∧ ((MgrState.updateSessions (MgrState.start (initState [startupSession]) armEnvDefault)
          [startupSession] armEnvDefault).live.filter isStartupFire).length = 2
    ∧ ((MgrState.updateSessions
          (runStartupLatch (MgrState.start (initState [startupSession]) armEnvDefault))
          [startupSession] armEnvDefault).live.filter isStartupFire).length = 1 := by
  decide

/-! ### Lifecycle preservation lemmas for the network loop and handle
ownership -/

theorem fcFold_preserves (env : ArmEnv) (paths : List String) :
    ∀ acc : MgrState × List Nat,
      (fcFold env paths acc).1.live = acc.1.live
      ∧ (fcFold env paths acc).1.networkWatcher = acc.1.networkWatcher
      ∧ (fcFold env paths acc).1.fileWatchers = acc.1.fileWatchers := by
  induction paths with
  | nil => intro acc; exact ⟨rfl, rfl, rfl⟩
  | cons p ps ih =>
      intro acc
      simp only [fcFold, List.foldl_cons] at ih ⊢
      by_cases hw : env.watchOk p
      · simpa [hw] using ih _
      · simpa [hw] using ih _

theorem checkNetwork_preserves (st : MgrState) (sample : Option String) :
    (checkNetwork st sample).live = st.live
    ∧ (checkNetwork st sample).networkWatcher = st.networkWatcher
    ∧ (checkNetwork st sample).fileWatchers = st.fileWatchers
    ∧ (checkNetwork st sample).nextId = st.nextId := by
  unfold checkNetwork
  split <;> exact ⟨rfl, rfl, rfl, rfl⟩

theorem armTrigger_netInv (session : SessionConfig) (env : ArmEnv) (st : MgrState)
    (tr : Trigger) (h : netInv st) : netInv (armTrigger session env st tr) := by
  obtain ⟨h1, h2⟩ := h
  cases tr with
  | schedule t =>
      simp only [armTrigger, setupScheduleTrigger]
      split
      · refine ⟨?_, ?_⟩
        · simpa [countNetworkTimers, List.filter_append, isNetworkTimerB] using h1
        · intro lt hlt hk
          rcases List.mem_append.mp hlt with hlt | hlt
          · exact h2 lt hlt hk
          · simp at hlt
            subst hlt
            simp at hk
      · exact ⟨h1, h2⟩
  | interval t =>
      simp only [armTrigger, setupIntervalTrigger]
      refine ⟨?_, ?_⟩
      · simpa [countNetworkTimers, List.filter_append, isNetworkTimerB] using h1
      · intro lt hlt hk
        rcases List.mem_append.mp hlt with hlt | hlt
        · exact h2 lt hlt hk
        · simp at hlt
          subst hlt
          simp at hk
  | startup t =>
      simp only [armTrigger, setupStartupTrigger]
      split
      · refine ⟨?_, ?_⟩
        · simpa [countNetworkTimers, List.filter_append, isNetworkTimerB] using h1
        · intro lt hlt hk
          rcases List.mem_append.mp hlt with hlt | hlt
          · exact h2 lt hlt hk
          · simp at hlt
            subst hlt
            simp at hk
      · exact ⟨h1, h2⟩
  | fileChange t =>
      simp only [armTrigger, setupFileChangeTrigger]
      have hp := fcFold_preserves env t.watchPaths (st, [])
      refine ⟨?_, ?_⟩
      · simpa [hp.1, hp.2.1] using h1
      · intro lt hlt hk
        rw [show ({ (fcFold env t.watchPaths (st, [])).1 with
              fileWatchers := mapSetW (fcFold env t.watchPaths (st, [])).1.fileWatchers
                session.id (mapGetW (fcFold env t.watchPaths (st, [])).1.fileWatchers session.id
                  ++ (fcFold env t.watchPaths (st, [])).2) } : MgrState).live
            = st.live from hp.1] at hlt
        exact h2 lt hlt hk
  | wifi t =>
      simp only [armTrigger, setupWiFiTrigger]
      split
      · next hnone =>
          simp only [startNetworkMonitoring]
          have hp := checkNetwork_preserves st env.ssidSample
          refine ⟨?_, ?_⟩
          · have hc : countNetworkTimers
                ((checkNetwork st env.ssidSample).live
                  ++ [⟨(checkNetwork st env.ssidSample).nextId, TimerKind.networkCheck,
                       10000, true⟩]) = countNetworkTimers st.live + 1 := by
              simp [countNetworkTimers, List.filter_append, hp.1, isNetworkTimerB]
            simp only [hc]
            rw [hp.1] at hc ⊢
            simp only [hnone, Option.isSome_none] at h1
            simp [h1]
          · intro lt hlt hk
            rcases List.mem_append.mp hlt with hlt | hlt
            · rw [hp.1] at hlt
              exact h2 lt hlt hk
            · simp at hlt
              subst hlt
              exact ⟨rfl, rfl⟩
      · exact ⟨h1, h2⟩

theorem foldTriggers_netInv (session : SessionConfig) (env : ArmEnv)
    (trs : List Trigger) : ∀ st : MgrState, netInv st
      → netInv (trs.foldl (armTrigger session env) st) := by
  induction trs with
  | nil => intro st h; exact h
  | cons tr trs ih =>
      intro st h
      simp only [List.foldl_cons]
      exact ih _ (armTrigger_netInv session env st tr h)

theorem foldSessions_netInv (env : ArmEnv) (ss : List SessionConfig) :
    ∀ st : MgrState, netInv st
      → netInv (ss.foldl
          (fun acc session => if session.enabled then setupTriggers session env acc else acc)
          st) := by
  induction ss with
  | nil => intro st h; exact h
  | cons s ss ih =>
      intro st h
      simp only [List.foldl_cons]
      by_cases he : s.enabled
      · simp only [he, if_true]
        exact ih _ (foldTriggers_netInv s env s.triggers st h)
      · simp only [he, if_false]
        exact ih _ h

theorem start_netInv (st : MgrState) (env : ArmEnv) (h : netInv st) :
    netInv (MgrState.start st env) := by
  obtain ⟨h1, h2⟩ := foldSessions_netInv env st.sessions st h
  simp only [MgrState.start]
  refine ⟨?_, ?_⟩
  · simpa [countNetworkTimers, List.filter_append, isNetworkTimerB] using h1
  · intro lt hlt hk
    rcases List.mem_append.mp hlt with hlt | hlt
    · exact h2 lt hlt hk
    · simp at hlt
      subst hlt
      simp at hk

theorem armTrigger_netw_isSome (session : SessionConfig) (env : ArmEnv) (st : MgrState)
    (tr : Trigger) :
    (armTrigger session env st tr).networkWatcher.isSome
      = (st.networkWatcher.isSome || isWifiTriggerB tr) := by
  cases tr with
  | schedule t =>
      simp only [armTrigger, setupScheduleTrigger, isWifiTriggerB]
      split <;> simp
  | interval t => simp [armTrigger, setupIntervalTrigger, isWifiTriggerB]
  | startup t =>
      simp only [armTrigger, setupStartupTrigger, isWifiTriggerB]
      split <;> simp
  | fileChange t =>
      have hp := fcFold_preserves env t.watchPaths (st, [])
      simp only [armTrigger, setupFileChangeTrigger, isWifiTriggerB]
      simp [hp.2.1]
  | wifi t =>
      simp only [armTrigger, setupWiFiTrigger, isWifiTriggerB]
      split
      · next hnone => simp [startNetworkMonitoring]
      · next hsome =>
          have : st.networkWatcher.isSome = true := Option.isSome_iff_ne_none.mpr hsome
          simp [this]

theorem foldTriggers_netw_isSome (session : SessionConfig) (env : ArmEnv)
    (trs : List Trigger) : ∀ st : MgrState,
      (trs.foldl (armTrigger session env) st).networkWatcher.isSome
        = (st.networkWatcher.isSome || trs.any isWifiTriggerB) := by
  induction trs with
  | nil => intro st; simp
  | cons tr trs ih =>
      intro st
      simp only [List.foldl_cons, List.any_cons]
      rw [ih, armTrigger_netw_isSome]
      cases st.networkWatcher.isSome <;> cases isWifiTriggerB tr <;> simp

theorem foldSessions_netw_isSome (env : ArmEnv) (ss : List SessionConfig) :
    ∀ st : MgrState,
      ((ss.foldl
          (fun acc session => if session.enabled then setupTriggers session env acc else acc)
          st).networkWatcher.isSome)
        = (st.networkWatcher.isSome || ss.any (fun s => s.enabled && hasWifiTrigger s)) := by
  induction ss with
  | nil => intro st; simp
  | cons s ss ih =>
      intro st
      simp only [List.foldl_cons, List.any_cons]
      by_cases he : s.enabled
      · simp only [he, if_true]
        rw [ih]
        simp only [setupTriggers]
        rw [foldTriggers_netw_isSome]
        simp only [hasWifiTrigger, he, Bool.true_and]
        cases st.networkWatcher.isSome <;> cases s.triggers.any isWifiTriggerB <;> simp
      · simp only [he, if_false]
        rw [ih]
        simp [he]

theorem start_netw_isSome (st : MgrState) (env : ArmEnv) :
    (MgrState.start st env).networkWatcher.isSome
      = (st.networkWatcher.isSome
         || st.sessions.any (fun s => s.enabled && hasWifiTrigger s)) := by
  simp only [MgrState.start]
  rw [show ∀ st1 : MgrState, ∀ x n,
      ({ st1 with live := x, nextId := n } : MgrState).networkWatcher = st1.networkWatcher
      from fun _ _ _ => rfl]
  exact foldSessions_netw_isSome env st.sessions st

theorem mem_mapSetW (m : List (String × List Nat)) (k : String) (v : List Nat) :
    ∀ kv ∈ mapSetW m k v, kv.1 = k ∨ kv ∈ m := by
  induction m with
  | nil => intro kv h; simp [mapSetW] at h; simp [h]
  | cons kv0 m ih =>
      intro kv h
      simp only [mapSetW] at h
      split at h
      · rcases List.mem_cons.mp h with rfl | h
        · simp
        · exact Or.inr (List.mem_cons_of_mem _ h)
      · rcases List.mem_cons.mp h with rfl | h
        · exact Or.inr (List.mem_cons_self _ _)
        · rcases ih kv h with h | h
          · exact Or.inl h
          · exact Or.inr (List.mem_cons_of_mem _ h)

theorem armTrigger_ownerInv (A : List SessionConfig) (session : SessionConfig)
    (env : ArmEnv) (st : MgrState) (tr : Trigger)
    (hmem : session ∈ A) (hen : session.enabled = true)
    (h : ownerInv A st) : ownerInv A (armTrigger session env st tr) := by
  obtain ⟨h1, h2⟩ := h
  cases tr with
  | schedule t =>
      simp only [armTrigger, setupScheduleTrigger]
      split
      · refine ⟨?_, h2⟩
        intro lt hlt sid hsid
        rcases List.mem_append.mp hlt with hlt | hlt
        · exact h1 lt hlt sid hsid
        · simp at hlt
          subst hlt
          simp [timerOwner] at hsid
          exact ⟨session, hmem, hen, hsid⟩
      · exact ⟨h1, h2⟩
  | interval t =>
      simp only [armTrigger, setupIntervalTrigger]
      refine ⟨?_, h2⟩
      intro lt hlt sid hsid
      rcases List.mem_append.mp hlt with hlt | hlt
      · exact h1 lt hlt sid hsid
      · simp at hlt
        subst hlt
        simp [timerOwner] at hsid
        exact ⟨session, hmem, hen, hsid⟩
  | startup t =>
      simp only [armTrigger, setupStartupTrigger]
      split
      · refine ⟨?_, h2⟩
        intro lt hlt sid hsid
        rcases List.mem_append.mp hlt with hlt | hlt
        · exact h1 lt hlt sid hsid
        · simp at hlt
          subst hlt
          simp [timerOwner] at hsid
          exact ⟨session, hmem, hen, hsid⟩
      · exact ⟨h1, h2⟩
  | wifi t =>
      simp only [armTrigger, setupWiFiTrigger]
      split
      · simp only [startNetworkMonitoring]
        have hp := checkNetwork_preserves st env.ssidSample
        refine ⟨?_, ?_⟩
        · intro lt hlt sid hsid
          rcases List.mem_append.mp hlt with hlt | hlt
          · rw [hp.1] at hlt
            exact h1 lt hlt sid hsid
          · simp at hlt
            subst hlt
            simp [timerOwner] at hsid
        · intro kv hkv
          rw [show ({ checkNetwork st env.ssidSample with
                networkWatcher := some (checkNetwork st env.ssidSample).nextId,
                live := (checkNetwork st env.ssidSample).live
                  ++ [⟨(checkNetwork st env.ssidSample).nextId, TimerKind.networkCheck,
                       10000, true⟩],
                nextId := (checkNetwork st env.ssidSample).nextId + 1 } : MgrState).fileWatchers
              = st.fileWatchers from hp.2.2.1] at hkv
          exact h2 kv hkv
      · exact ⟨h1, h2⟩
  | fileChange t =>
      simp only [armTrigger, setupFileChangeTrigger]
      have hp := fcFold_preserves env t.watchPaths (st, [])
      refine ⟨?_, ?_⟩
      · intro lt hlt sid hsid
        rw [show ({ (fcFold env t.watchPaths (st, [])).1 with
              fileWatchers := mapSetW (fcFold env t.watchPaths (st, [])).1.fileWatchers
                session.id (mapGetW (fcFold env t.watchPaths (st, [])).1.fileWatchers session.id
                  ++ (fcFold env t.watchPaths (st, [])).2) } : MgrState).live
            = st.live from hp.1] at hlt
        exact h1 lt hlt sid hsid
      · intro kv hkv
        have hkv2 : kv ∈ mapSetW (fcFold env t.watchPaths (st, [])).1.fileWatchers
            session.id (mapGetW (fcFold env t.watchPaths (st, [])).1.fileWatchers session.id
              ++ (fcFold env t.watchPaths (st, [])).2) := hkv
        rcases mem_mapSetW _ _ _ kv hkv2 with hk | hk
        · exact ⟨session, hmem, hen, hk.symm⟩
        · rw [hp.2.2] at hk
          exact h2 kv hk

theorem foldTriggers_ownerInv (A : List SessionConfig) (session : SessionConfig)
    (env : ArmEnv) (trs : List Trigger)
    (hmem : session ∈ A) (hen : session.enabled = true) :
    ∀ st : MgrState, ownerInv A st
      → ownerInv A (trs.foldl (armTrigger session env) st) := by
  induction trs with
  | nil => intro st h; exact h
  | cons tr trs ih =>
      intro st h
      simp only [List.foldl_cons]
      exact ih _ (armTrigger_ownerInv A session env st tr hmem hen h)

theorem foldSessions_ownerInv (A : List SessionConfig) (env : ArmEnv)
    (ss : List SessionConfig) (hsub : ∀ s ∈ ss, s ∈ A) :
    ∀ st : MgrState, ownerInv A st
      → ownerInv A (ss.foldl
          (fun acc session => if session.enabled then setupTriggers session env acc else acc)
          st) := by
  induction ss with
  | nil => intro st h; exact h
  | cons s ss ih =>
      intro st h
      simp only [List.foldl_cons]
      by_cases he : s.enabled
      · simp only [he, if_true]
        refine ih (fun x hx => hsub x (List.mem_cons_of_mem _ hx)) _ ?_
        exact foldTriggers_ownerInv A s env s.triggers (hsub s (List.mem_cons_self _ _)) he st h
      · simp only [he, if_false]
        exact ih (fun x hx => hsub x (List.mem_cons_of_mem _ hx)) _ h

theorem start_ownerInv (A : List SessionConfig) (st : MgrState) (env : ArmEnv)
    (hsess : st.sessions = A) (h : ownerInv A st) :
    ownerInv A (MgrState.start st env) := by
  have hf := foldSessions_ownerInv A env st.sessions (by rw [hsess]; exact fun s hs => hs) st h
  obtain ⟨h1, h2⟩ := hf
  simp only [MgrState.start]
  refine ⟨?_, h2⟩
  intro lt hlt sid hsid
  rcases List.mem_append.mp hlt with hlt | hlt
  · exact h1 lt hlt sid hsid
  · simp at hlt
    subst hlt
    simp [timerOwner] at hsid

theorem mem_wifiFireList (sid0 sid : String) (cur sample : Option String) (tr : Trigger) :
    sid ∈ wifiFireList sid0 cur sample tr
      ↔ (sid = sid0 ∧ ∃ wt : WiFiTrigger, tr = Trigger.wifi wt
          ∧ ((wt.onConnect = true ∧ sample = some wt.ssid)
             ∨ (wt.onConnect = false ∧ cur = some wt.ssid ∧ sample ≠ some wt.ssid))) := by
  cases tr with
  | wifi wt =>
      simp only [wifiFireList, List.mem_append]
      constructor
      · rintro (h | h)
        · split at h
          · next hc =>
              simp at h
              subst h
              simp only [Bool.and_eq_true, beq_iff_eq] at hc
              exact ⟨rfl, wt, rfl, Or.inl ⟨hc.1, hc.2⟩⟩
          · simp at h
        · split at h
          · next hc =>
              simp at h
              subst h
              simp only [Bool.and_eq_true, Bool.not_eq_true', beq_iff_eq, bne_iff_ne,
                ne_eq] at hc
              exact ⟨rfl, wt, rfl, Or.inr ⟨hc.1, hc.2.1, hc.2.2⟩⟩
          · simp at h
      · rintro ⟨rfl, wt2, heq, hcond⟩
        cases heq
        rcases hcond with ⟨hoc, hss⟩ | ⟨hoc, hcur, hne⟩
        · refine Or.inl ?_
          have : (wt.onConnect && sample == some wt.ssid) = true := by
            simp [hoc, hss]
          simp [this]
        · refine Or.inr ?_
          have : (!wt.onConnect && (cur == some wt.ssid && sample != some wt.ssid)) = true := by
            simp [hoc, hcur, bne_iff_ne, hne]
          simp [this]
  | schedule t => simp [wifiFireList]
  | fileChange t => simp [wifiFireList]
  | startup t => simp [wifiFireList]
  | interval t => simp [wifiFireList]

/-! ### C8: the shared WiFi polling loop -/

/-- C8.  The arm pass keeps at most one live network polling timer; the
loop exists exactly when some enabled session carries a WiFi trigger
(lazy start, shared across sessions); every live polling timer repeats
every ten seconds; on a sampled identity change checkNetwork appends
exactly the fires of the shared evaluation over all sessions, and a
session id fires exactly when one of its WiFi triggers satisfies the
connect condition (onConnect and the new identity equals its ssid) or
the disconnect condition (not onConnect, the previous identity equals
its ssid, and the new identity differs). -/
theorem wifi_shared_loop (sessions : List SessionConfig) (env : ArmEnv)
    (cur sample : Option String) (sid : String) (st0 : MgrState)
    (hchange : sample ≠ cur) :
    countNetworkTimers (MgrState.start (initState sessions) env).live ≤ 1
    ∧ ((MgrState.start (initState sessions) env).networkWatcher.isSome
        ↔ ∃ s, s ∈ sessions ∧ s.enabled = true ∧ hasWifiTrigger s = true)
    ∧ (∀ lt ∈ (MgrState.start (initState sessions) env).live,
        lt.kind = TimerKind.networkCheck → lt.delayMs = 10000 ∧ lt.repeats = true)
    ∧ (st0.currentSSID = cur → st0.sessions = sessions →
        (checkNetwork st0 sample).syncRequests
          = st0.syncRequests ++ checkNetworkFires sessions cur sample)
    ∧ (sid ∈ checkNetworkFires sessions cur sample
        ↔ ∃ s wt, s ∈ sessions ∧ s.id = sid ∧ Trigger.wifi wt ∈ s.triggers
            ∧ ((wt.onConnect = true ∧ sample = some wt.ssid)
               ∨ (wt.onConnect = false ∧ cur = some wt.ssid ∧ sample ≠ some wt.ssid))) := by
  have hinit : netInv (initState sessions) := by
    constructor
    · simp [initState, countNetworkTimers]
    · intro lt hlt
      simp [initState] at hlt
  have hinv := start_netInv (initState sessions) env hinit
  refine ⟨?_, ?_, hinv.2, ?_, ?_⟩
  · rw [hinv.1]
    split <;> omega
  · rw [start_netw_isSome]
    simp only [initState, Option.isSome_none, Bool.false_or]
    rw [List.any_eq_true]
    constructor
    · rintro ⟨s, hs, hb⟩
      rw [Bool.and_eq_true] at hb
      exact ⟨s, hs, hb.1, hb.2⟩
    · rintro ⟨s, hs, he, hw⟩
      exact ⟨s, hs, by rw [Bool.and_eq_true]; exact ⟨he, hw⟩⟩
  · intro hssid hsess
    unfold checkNetwork
    rw [hssid, hsess]
    simp [hchange]
  · simp only [checkNetworkFires, List.mem_flatMap, mem_wifiFireList]
    constructor
    · rintro ⟨s, hs, tr, htr, rfl, wt, rfl, hcond⟩
      exact ⟨s, wt, hs, rfl, htr, hcond⟩
    · rintro ⟨s, wt, hs, rfl, htr, hcond⟩
      exact ⟨s, hs, Trigger.wifi wt, htr, rfl, wt, rfl, hcond⟩

/-- C8, witness: on the two-session example collection the loop count
is at most one and session wa fires when the identity changes from none
to Office. -/
theorem wifi_shared_loop_witness :
    (some "Office" : Option String) ≠ (none : Option String)
    ∧ countNetworkTimers
        (MgrState.start (initState [wifiSessionA, wifiSessionB]) armEnvDefault).live ≤ 1
    ∧ "wa" ∈ checkNetworkFires [wifiSessionA, wifiSessionB] none (some "Office") := by
  have h := wifi_shared_loop [wifiSessionA, wifiSessionB] armEnvDefault none
    (some "Office") "wa" (initState []) (by decide)
  refine ⟨by decide, h.1, ?_⟩
  exact h.2.2.2.2.mpr
    ⟨wifiSessionA, ⟨"Office", true⟩, by decide, rfl, by decide, Or.inl ⟨rfl, rfl⟩⟩

/-! ### C9: disabled sessions -/

/-- C9, amended.  The arm pass never arms a disabled session: every
live timer owned by a session id belongs to an enabled session of the
collection, every file watcher entry does too, and the shared network
loop starts exactly when some enabled session carries a WiFi trigger.
(The shared loop then evaluates the WiFi triggers of all sessions,
including disabled ones; see the counterexample.) -/
theorem disabled_sessions_never_armed (sessions : List SessionConfig) (env : ArmEnv) :
    ownerInv sessions (MgrState.start (initState sessions) env)
    ∧ ((MgrState.start (initState sessions) env).networkWatcher.isSome
        ↔ ∃ s, s ∈ sessions ∧ s.enabled = true ∧ hasWifiTrigger s = true) := by
  constructor
  · refine start_ownerInv sessions (initState sessions) env rfl ?_
    constructor
    · intro lt hlt
      simp [initState] at hlt
    · intro kv hkv
      simp [initState] at hkv
  · rw [start_netw_isSome]
    simp only [initState, Option.isSome_none, Bool.false_or]
    rw [List.any_eq_true]
    constructor
    · rintro ⟨s, hs, hb⟩
      rw [Bool.and_eq_true] at hb
      exact ⟨s, hs, hb.1, hb.2⟩
    · rintro ⟨s, hs, he, hw⟩
      exact ⟨s, hs, by rw [Bool.and_eq_true]; exact ⟨he, hw⟩⟩

/-- C9, counterexample to the claim as frozen: with the loop started by
the enabled session wa, an identity change to Office also fires the
disabled session wb, because checkNetwork iterates over all sessions
(line 366) with no enabled check. -/
theorem disabled_session_fires_cex :
    wifiSessionB.enabled = false
    ∧ (MgrState.start (initState [wifiSessionA, wifiSessionB])
        armEnvDefault).networkWatcher.isSome = true
    ∧ "wb" ∈ (checkNetwork
        (MgrState.start (initState [wifiSessionA, wifiSessionB]) armEnvDefault)
        (some "Office")).syncRequests := by
  decide

/-- C9, witness: the loop-start equivalence evaluated on the example
collection. -/
theorem disabled_sessions_never_armed_witness :
    ∃ s, s ∈ [wifiSessionA, wifiSessionB] ∧ s.enabled = true ∧ hasWifiTrigger s = true :=
  (disabled_sessions_never_armed [wifiSessionA, wifiSessionB] armEnvDefault).2.mp (by decide)

end ImeSync
